import Mathlib

/-
Verification of the constrained multibody / peridynamics core of the
Chrono physics engine against its natural-language specification.

The C++ sources are shallowly embedded: machine doubles become exact
rationals (or reals where square roots and pi are inherently needed),
Eigen vector segments become small record types or index functions, and
each member function becomes a Lean function that is a line-by-line
transcription of the source.  Math-library primitives that the spec
treats as external collaborators (rotation-vector exponential and
logarithm maps, the plasticity return-mapping oracle) are taken as
function parameters, constrained only by the semantics the spec
assigns to them.
-/

namespace Chrono

/-- Vector of three scalars, the embedding of ChVector3d components. -/
structure Vec3 (α : Type) where
  x : α
  y : α
  z : α
deriving DecidableEq, Repr

namespace Vec3

def add {α : Type} [Add α] (a b : Vec3 α) : Vec3 α :=
  ⟨a.x + b.x, a.y + b.y, a.z + b.z⟩

def sub {α : Type} [Sub α] (a b : Vec3 α) : Vec3 α :=
  ⟨a.x - b.x, a.y - b.y, a.z - b.z⟩

def neg {α : Type} [Neg α] (a : Vec3 α) : Vec3 α :=
  ⟨-a.x, -a.y, -a.z⟩

def smul {α : Type} [Mul α] (c : α) (a : Vec3 α) : Vec3 α :=
  ⟨c * a.x, c * a.y, c * a.z⟩

/-- Cross product, embedding of Vcross. -/
def cross {α : Type} [Ring α] (a b : Vec3 α) : Vec3 α :=
  ⟨a.y * b.z - a.z * b.y, a.z * b.x - a.x * b.z, a.x * b.y - a.y * b.x⟩

/-- Dot product, embedding of Vdot. -/
def dot {α : Type} [Ring α] (a b : Vec3 α) : α :=
  a.x * b.x + a.y * b.y + a.z * b.z

/-- Infinity norm of a 3-vector, embedding of ChVector3::LengthInf. -/
def lengthInf (a : Vec3 ℚ) : ℚ :=
  max |a.x| (max |a.y| |a.z|)

def zero {α : Type} [Zero α] : Vec3 α := ⟨0, 0, 0⟩

end Vec3

/-- Matrix-vector product for a 3 by 3 matrix stored as three rows. -/
structure Mat33 (α : Type) where
  r0 : Vec3 α
  r1 : Vec3 α
  r2 : Vec3 α
deriving DecidableEq, Repr

namespace Mat33

def mulVec {α : Type} [Ring α] (M : Mat33 α) (v : Vec3 α) : Vec3 α :=
  ⟨M.r0.dot v, M.r1.dot v, M.r2.dot v⟩

end Mat33

/-! ### Claim C10: boxed two-variable constraint projection

Embedding of ChConstraintTwoGenericBoxed (solver constraint with box
bounds on the Lagrange multiplier).  SetBoxedMinMax carries the
assert(mmin <= mmax) of the source as a hypothesis of the theorem;
Project is the two sequential clamping branches of the source. -/

/-- Mutable data of a ChConstraintTwoGenericBoxed relevant to projection. -/
structure BoxedConstraint where
  l_min : ℚ
  l_max : ℚ
  l_i : ℚ
deriving DecidableEq, Repr

/-- Embedding of ChConstraintTwoGenericBoxed::SetBoxedMinMax: stores the
bounds (the source asserts mmin <= mmax before storing). -/
def SetBoxedMinMax (c : BoxedConstraint) (mmin mmax : ℚ) : BoxedConstraint :=
  { c with l_min := mmin, l_max := mmax }

/-- Embedding of ChConstraintTwoGenericBoxed::Project: clamp l_i into
the admissible box, first from below and then from above. -/
def Project (c : BoxedConstraint) : BoxedConstraint :=
  let c1 := if c.l_i < c.l_min then { c with l_i := c.l_min } else c
  if c1.l_i > c1.l_max then { c1 with l_i := c1.l_max } else c1

/-! ### Claim C1: position increment and decrement of a rigid body

Embedding of ChBody::IntStateIncrement and ChBody::IntStateGetIncrement.
The quaternion product and conjugate are transcribed from Qcross and
Qconjugate of the sources; the rotation-vector exponential and logarithm
(ChQuaternion::SetFromRotVec / GetRotVec) belong to the math library the
spec treats as external, so they enter as function parameters constrained
by the round-trip semantics the spec assigns to them for rotation vectors
of angle below pi. -/

/-- Quaternion as four scalars, embedding of ChQuaterniond. -/
structure Quat where
  e0 : ℚ
  e1 : ℚ
  e2 : ℚ
  e3 : ℚ
deriving DecidableEq, Repr

namespace Quat

/-- Embedding of Qcross, the quaternion product of the sources. -/
def qcross (qa qb : Quat) : Quat :=
  ⟨qa.e0 * qb.e0 - qa.e1 * qb.e1 - qa.e2 * qb.e2 - qa.e3 * qb.e3,
   qa.e0 * qb.e1 + qa.e1 * qb.e0 - qa.e3 * qb.e2 + qa.e2 * qb.e3,
   qa.e0 * qb.e2 + qa.e2 * qb.e0 + qa.e3 * qb.e1 - qa.e1 * qb.e3,
   qa.e0 * qb.e3 + qa.e3 * qb.e0 - qa.e2 * qb.e1 + qa.e1 * qb.e2⟩

/-- Embedding of Qconjugate. -/
def qconjugate (q : Quat) : Quat :=
  ⟨q.e0, -q.e1, -q.e2, -q.e3⟩

/-- Squared two-norm of the four Euler parameters. -/
def normSq (q : Quat) : ℚ :=
  q.e0 * q.e0 + q.e1 * q.e1 + q.e2 * q.e2 + q.e3 * q.e3

end Quat

/-- Position block of a rigid body inside the global x state vector:
three translation slots and four quaternion slots. -/
structure BodyCoordState where
  pos : Vec3 ℚ
  rot : Quat
deriving DecidableEq, Repr

/-- Velocity-sized increment block of a rigid body inside the global Dv
vector: three translation slots and a three-component rotation vector. -/
structure BodyStateIncr where
  dpos : Vec3 ℚ
  drot : Vec3 ℚ
deriving DecidableEq, Repr

/-- Embedding of ChBody::IntStateIncrement: translation slots advance by
plain addition, the rotation advances by local quaternion composition
q_new = q_old * exp(drot). -/
def IntStateIncrement (setFromRotVec : Vec3 ℚ → Quat)
    (x : BodyCoordState) (Dv : BodyStateIncr) : BodyCoordState :=
  { pos := x.pos.add Dv.dpos,
    rot := Quat.qcross x.rot (setFromRotVec Dv.drot) }

/-- Embedding of ChBody::IntStateGetIncrement: translation slots by plain
subtraction, rotation by the local decrement rule Dq_loc =
conjugate(q_old) * q_new turned back into a rotation vector. -/
def IntStateGetIncrement (getRotVec : Quat → Vec3 ℚ)
    (x_new x : BodyCoordState) : BodyStateIncr :=
  { dpos := x_new.pos.sub x.pos,
    drot := getRotVec (Quat.qcross (Quat.qconjugate x.rot) x_new.rot) }

/-! ### Claims C2 and C3: the angle motor between two shafts

Embedding of ChShaftsMotorAngle (ChShaftsMotorAngle.h / .cpp).  The
prescribed motion is a ChFunction, embedded as a pair of maps giving its
value and its time derivative.  Shaft angles live in the two connected
ChShaft objects; the solver-facing scalar constraint state (Jacobian
entries, right-hand side, multiplier) is embedded as plain fields. -/

/-- Embedding of a ChFunction as its value and derivative maps. -/
structure FunctionTime where
  val : ℚ → ℚ
  der : ℚ → ℚ

/-- State of a ChShaftsMotorAngle, with the angles of the two connected
shafts and the scalar constraint interface data it owns. -/
structure ShaftsMotorAngle where
  shaft1_pos : ℚ
  shaft2_pos : ℚ
  f_rot : FunctionTime
  rot_offset : ℚ
  violation : ℚ
  motor_torque : ℚ
  chTime : ℚ
  Cq_a : ℚ
  Cq_b : ℚ
  b_i : ℚ
  l_i : ℚ

/-- Pointwise update of a global vector embedded as an index function. -/
def updAt (Q : ℕ → ℚ) (i : ℕ) (v : ℚ) : ℕ → ℚ :=
  fun j => if j = i then v else Q j

namespace ShaftsMotorAngle

/-- Modelled from the spec: GetMotorAngle lives in the ChShaftsMotor base
class, which is not among the sources; per the spec constraint equation
C = theta_A(t) - theta_B(t) - f(t) - offset, the motor angle is the angle
of shaft A minus the angle of shaft B. -/
def GetMotorAngle (m : ShaftsMotorAngle) : ℚ :=
  m.shaft1_pos - m.shaft2_pos

/-- Embedding of ChShaftsMotorAngle::Update: sets the time and recomputes
the stored constraint violation. -/
def Update (m : ShaftsMotorAngle) (mytime : ℚ) : ShaftsMotorAngle :=
  { m with chTime := mytime,
           violation := GetMotorAngle m - m.f_rot.val mytime - m.rot_offset }

/-- Embedding of ChShaftsMotorAngle::GetConstraintViolation. -/
def GetConstraintViolation (m : ShaftsMotorAngle) : ℚ :=
  m.violation

/-- Embedding of ChShaftsMotorAngle::IntLoadConstraint_C: loads the scaled
violation c*C into Qc at off_L, clamping c*C to the recovery bounds when
do_clamp is set. -/
def IntLoadConstraint_C (m : ShaftsMotorAngle) (off_L : ℕ) (Qc : ℕ → ℚ)
    (c : ℚ) (do_clamp : Bool) (recovery_clamp : ℚ) : ℕ → ℚ :=
  let res := c * (GetMotorAngle m - m.f_rot.val m.chTime - m.rot_offset)
  let res := if do_clamp then min (max res (-recovery_clamp)) recovery_clamp else res
  updAt Qc off_L (Qc off_L + res)

/-- Embedding of ChShaftsMotorAngle::IntLoadConstraint_Ct: loads the scaled
rheonomic term c*Ct with Ct = -df/dt into Qc at off_L. -/
def IntLoadConstraint_Ct (m : ShaftsMotorAngle) (off_L : ℕ) (Qc : ℕ → ℚ)
    (c : ℚ) : ℕ → ℚ :=
  let ct := -(m.f_rot.der m.chTime)
  updAt Qc off_L (Qc off_L + c * ct)

/-- Embedding of ChShaftsMotorAngle::ConstraintsBiLoad_C, transcribed as
written in the source: res = factor*C is computed, the do_clamp and
recovery_clamp arguments are never consulted, and factor*res is added to
the constraint right-hand side b_i. -/
def ConstraintsBiLoad_C (m : ShaftsMotorAngle) (factor recovery_clamp : ℚ)
    (do_clamp : Bool) : ShaftsMotorAngle :=
  let res := factor * (GetMotorAngle m - m.f_rot.val m.chTime - m.rot_offset)
  { m with b_i := m.b_i + factor * res }

/-- Embedding of ChShaftsMotorAngle::ConstraintsLoadJacobians: the Jacobian
entry for shaft A is +1 and for shaft B is -1. -/
def ConstraintsLoadJacobians (m : ShaftsMotorAngle) : ShaftsMotorAngle :=
  { m with Cq_a := 1, Cq_b := -1 }

end ShaftsMotorAngle

/-! ### Claim C4: rigid-body residual force loading

Embedding of ChBody::IntLoadResidual_F and ChBody::ComputeGyro.  The
global residual is an index function; a body's contribution touches the
six velocity slots starting at its offset. -/

/-- Adds a 3-vector into three consecutive slots of a global vector. -/
def addSeg3 (R : ℕ → ℚ) (off : ℕ) (v : Vec3 ℚ) : ℕ → ℚ :=
  fun j =>
    if j = off then R j + v.x
    else if j = off + 1 then R j + v.y
    else if j = off + 2 then R j + v.z
    else R j

/-- Force-side state of a ChBody: accumulated applied force and torque,
local angular velocity, body inertia tensor, the no-gyro-torque flag and
the cached gyroscopic vector. -/
structure BodyForceState where
  Xforce : Vec3 ℚ
  Xtorque : Vec3 ℚ
  angVelLocal : Vec3 ℚ
  inertia : Mat33 ℚ
  noGyroTorque : Bool
  gyro : Vec3 ℚ
deriving Repr

/-- Embedding of ChBody::ComputeGyro: gyro = w x (I * w) with the local
angular velocity w and the body inertia I. -/
def ComputeGyro (b : BodyForceState) : BodyForceState :=
  { b with gyro := Vec3.cross b.angVelLocal (b.inertia.mulVec b.angVelLocal) }

/-- Embedding of ChBody::IntLoadResidual_F: adds c times the applied force
into the three translational residual slots and c times the applied torque
(minus the cached gyroscopic torque unless the no-gyro flag is set) into
the three rotational residual slots. -/
def IntLoadResidual_F (b : BodyForceState) (off : ℕ) (R : ℕ → ℚ) (c : ℚ) :
    ℕ → ℚ :=
  let R1 := addSeg3 R off (Vec3.smul c b.Xforce)
  if b.noGyroTorque then addSeg3 R1 (off + 3) (Vec3.smul c b.Xtorque)
  else addSeg3 R1 (off + 3) (Vec3.smul c (b.Xtorque.sub b.gyro))

/-! ### Claim C7: the sleep-candidate heuristic of a rigid body

Embedding of ChBody::TrySleeping together with the flag predicates it
consults (IsActive, GetUseSleeping) and the sleep bookkeeping fields. -/

/-- Infinity norm of the four quaternion components, embedding of the
LengthInf call on the rotation derivative. -/
def Quat.lengthInf (q : Quat) : ℚ :=
  max |q.e0| (max |q.e1| (max |q.e2| |q.e3|))

/-- Sleep-relevant state of a ChBody: the flag bits touched by
TrySleeping, the translational and quaternion velocities, the thresholds
and the timer. -/
structure BodySleepState where
  useSleeping : Bool
  sleeping : Bool
  fixed : Bool
  couldSleep : Bool
  pos_dt : Vec3 ℚ
  rot_dt : Quat
  sleep_minspeed : ℚ
  sleep_minwvel : ℚ
  sleep_time : ℚ
  sleep_starttime : ℚ
  chTime : ℚ
deriving Repr

/-- Embedding of ChBody::IsActive: not sleeping and not fixed. -/
def BodySleepState.isActive (b : BodySleepState) : Bool :=
  !b.sleeping && !b.fixed

/-- Embedding of ChBody::TrySleeping: clears the could-sleep flag, then,
when sleeping is enabled and the body is active, marks the body as sleep
candidate when both speed measures are below their thresholds and the
elapsed time since the timer start exceeds sleep_time; when a speed
measure is not below its threshold the timer restarts from the current
time.  Returns the could-sleep verdict and the updated body. -/
def TrySleeping (b0 : BodySleepState) : Bool × BodySleepState :=
  let b := { b0 with couldSleep := false }
  if b.useSleeping then
    if !b.isActive then (false, b)
    else
      if b.pos_dt.lengthInf < b.sleep_minspeed ∧
          2 * b.rot_dt.lengthInf < b.sleep_minwvel then
        if b.chTime - b.sleep_starttime > b.sleep_time then
          (true, { b with couldSleep := true })
        else (false, b)
      else (false, { b with sleep_starttime := b.chTime })
  else (false, b)

/-! ### Claim C5: bulk-elastic peridynamic bond forces

Embedding of the unbroken-bond body of
ChMatterPeriBulkElastic::ComputeForces over the reals (the bond length
needs a square root and the micro-modulus needs pi).  The vector length
and normalization are math-library primitives. -/

/-- Length of a 3-vector over the reals, embedding of ChVector::Length. -/
noncomputable def Vec3.length (v : Vec3 ℝ) : ℝ :=
  Real.sqrt (v.x * v.x + v.y * v.y + v.z * v.z)

/-- Modelled from the spec: ChVector::GetNormalized is a math primitive
not under src; it rescales to unit length, with a degenerate-input
fallback to the x axis. -/
noncomputable def Vec3.getNormalized (v : Vec3 ℝ) : Vec3 ℝ :=
  if v.length = 0 then ⟨1, 0, 0⟩ else Vec3.smul (1 / v.length) v

/-- Data of one peridynamic node consumed by the bond force loop. -/
structure PeriNode where
  x0 : Vec3 ℝ
  pos : Vec3 ℝ
  pos_dt : Vec3 ℝ
  volume : ℝ
  h_rad : ℝ

/-- Material parameters of ChMatterPeriBulkElastic. -/
structure BulkElasticParams where
  k_bulk : ℝ
  r : ℝ

/-- Embedding of the unbroken-bond body of
ChMatterPeriBulkElastic::ComputeForces: returns the pair of force
contributions accumulated onto node A and onto node B. -/
noncomputable def bondForce (p : BulkElasticParams) (A B : PeriNode) :
    Vec3 ℝ × Vec3 ℝ :=
  let old_vdist := B.x0.sub A.x0
  let vdist := B.pos.sub A.pos
  let old_sdist := old_vdist.length
  let sdist := vdist.length
  let vdir := vdist.getNormalized
  let svel := vdir.dot (B.pos_dt.sub A.pos_dt)
  let stretch := (sdist - old_sdist) / old_sdist
  let horizon := A.h_rad
  let K_pih4 := 18 * p.k_bulk / (Real.pi * (horizon * horizon * horizon * horizon))
  let force_val := (1/2) * K_pih4 * stretch
  let force_val := if p.r > 0 then force_val + (1/2) * p.r * svel else force_val
  (Vec3.smul (force_val * B.volume) vdir,
   Vec3.smul (force_val * A.volume) (Vec3.neg vdir))

/-! ### Claim C6: shape-tensor guard in the per-node continuum phase

Embedding of the per-node body of phase 3 of
ChMatterPeridynamics::IntLoadResidual_F (identical in
VariablesFbLoadForces): volume from accumulated density, near-singular
shape-tensor deactivation with threshold 0.00003, otherwise analytic
3x3 inversion, deformation-gradient and step-strain computation, and
elastic stress from the return-mapping-corrected strain.  The material
law (ComputeReturnMapping, ComputeElasticStress) lives outside the
sources and enters as function parameters. -/

namespace Mat33

def transpose (M : Mat33 ℚ) : Mat33 ℚ :=
  ⟨⟨M.r0.x, M.r1.x, M.r2.x⟩, ⟨M.r0.y, M.r1.y, M.r2.y⟩, ⟨M.r0.z, M.r1.z, M.r2.z⟩⟩

def mul (A B : Mat33 ℚ) : Mat33 ℚ :=
  ⟨⟨A.r0.dot ⟨B.r0.x, B.r1.x, B.r2.x⟩, A.r0.dot ⟨B.r0.y, B.r1.y, B.r2.y⟩, A.r0.dot ⟨B.r0.z, B.r1.z, B.r2.z⟩⟩,
   ⟨A.r1.dot ⟨B.r0.x, B.r1.x, B.r2.x⟩, A.r1.dot ⟨B.r0.y, B.r1.y, B.r2.y⟩, A.r1.dot ⟨B.r0.z, B.r1.z, B.r2.z⟩⟩,
   ⟨A.r2.dot ⟨B.r0.x, B.r1.x, B.r2.x⟩, A.r2.dot ⟨B.r0.y, B.r1.y, B.r2.y⟩, A.r2.dot ⟨B.r0.z, B.r1.z, B.r2.z⟩⟩⟩

def smulM (c : ℚ) (M : Mat33 ℚ) : Mat33 ℚ :=
  ⟨Vec3.smul c M.r0, Vec3.smul c M.r1, Vec3.smul c M.r2⟩

def subM (A B : Mat33 ℚ) : Mat33 ℚ :=
  ⟨A.r0.sub B.r0, A.r1.sub B.r1, A.r2.sub B.r2⟩

def addM (A B : Mat33 ℚ) : Mat33 ℚ :=
  ⟨A.r0.add B.r0, A.r1.add B.r1, A.r2.add B.r2⟩

/-- Adds the scalar c to each diagonal entry. -/
def addDiag (M : Mat33 ℚ) (c : ℚ) : Mat33 ℚ :=
  ⟨⟨M.r0.x + c, M.r0.y, M.r0.z⟩, ⟨M.r1.x, M.r1.y + c, M.r1.z⟩, ⟨M.r2.x, M.r2.y, M.r2.z + c⟩⟩

def det (M : Mat33 ℚ) : ℚ :=
  M.r0.x * (M.r1.y * M.r2.z - M.r1.z * M.r2.y) -
  M.r0.y * (M.r1.x * M.r2.z - M.r1.z * M.r2.x) +
  M.r0.z * (M.r1.x * M.r2.y - M.r1.y * M.r2.x)

/-- Analytic 3x3 inverse by cofactors over the determinant, the formula
Eigen evaluates for a fixed-size 3x3 inverse() call. -/
def inv33 (M : Mat33 ℚ) : Mat33 ℚ :=
  smulM (1 / det M)
    ⟨⟨M.r1.y * M.r2.z - M.r1.z * M.r2.y,
      M.r0.z * M.r2.y - M.r0.y * M.r2.z,
      M.r0.y * M.r1.z - M.r0.z * M.r1.y⟩,
     ⟨M.r1.z * M.r2.x - M.r1.x * M.r2.z,
      M.r0.x * M.r2.z - M.r0.z * M.r2.x,
      M.r0.z * M.r1.x - M.r0.x * M.r1.z⟩,
     ⟨M.r1.x * M.r2.y - M.r1.y * M.r2.x,
      M.r0.y * M.r2.x - M.r0.x * M.r2.y,
      M.r0.x * M.r1.y - M.r0.y * M.r1.x⟩⟩

def zeroM : Mat33 ℚ :=
  ⟨⟨0, 0, 0⟩, ⟨0, 0, 0⟩, ⟨0, 0, 0⟩⟩

end Mat33

/-- Per-node continuum state touched by phase 3 of the force sweep. -/
structure PeriNodeState where
  mass : ℚ
  density : ℚ
  volume : ℚ
  Amoment : Mat33 ℚ
  J : Mat33 ℚ
  t_strain : Mat33 ℚ
  e_strain : Mat33 ℚ
  p_strain : Mat33 ℚ
  e_stress : Mat33 ℚ
  FA : Mat33 ℚ

/-- Embedding of the per-node body of phase 3: compute the nodal volume
from the accumulated density, then either deactivate the node when the
shape tensor is near singular (absolute determinant below 0.00003) or
invert it and run the strain, return-mapping and stress pipeline.
ComputeReturnMapping receives the step strain, last elastic strain and
last plastic strain; ComputeElasticStress maps the corrected strain to
the stress. -/
def perNodeUpdate (returnMapping : Mat33 ℚ → Mat33 ℚ → Mat33 ℚ → Mat33 ℚ)
    (elasticStress : Mat33 ℚ → Mat33 ℚ) (n : PeriNodeState) : PeriNodeState :=
  let volume := if n.density > 0 then n.mass / n.density else 0
  let M_tmp := n.Amoment
  if |M_tmp.det| < 3/100000 then
    { n with volume := volume, Amoment := Mat33.zeroM, e_strain := Mat33.zeroM }
  else
    let Ainv := M_tmp.inv33
    let M_tmp2 := (Ainv.mul n.J).addDiag 1
    let Jnew := M_tmp2.transpose
    let mtensor := (M_tmp2.mul Jnew).addDiag (-1)
    let t_strain := mtensor
    let flow := returnMapping t_strain n.e_strain n.p_strain
    let proj_e_strain := (n.e_strain.subM flow).addM t_strain
    let e_stress := elasticStress proj_e_strain
    let FA := Mat33.smulM (2 * volume) (Jnew.mul (e_stress.mul Ainv))
    { n with volume := volume, Amoment := Ainv, J := Jnew,
             t_strain := t_strain, e_stress := e_stress, FA := FA }

/-! ### Claim C8: FillBox mass conservation

Embedding of ChMatterPeridynamics::FillBox.  Node positions (and hence
the randomness and box-frame arguments) do not enter the node masses, so
the embedding returns the list of masses assigned to the created nodes:
the sample-count triple loop and the final equal-mass assignment are
transcribed; the per-sample AddNode position computation is dropped as it
never feeds back into masses. -/

/-- Conversion of a rational to int by the C cast rule (truncation toward
zero), embedding the (int)(size/spacing) sample counts. -/
def cIntCast (q : ℚ) : ℤ :=
  if 0 ≤ q then ⌊q⌋ else ⌈q⌉

/-- Number of nodes created by the FillBox triple loop: one per grid
sample, plus one centered-cube sample for every grid point that is last
along no axis when do_centeredcube is set. -/
def fillBoxCount (sx sy sz : ℕ) (cc : Bool) : ℕ :=
  ∑ ix ∈ Finset.range sx, ∑ iy ∈ Finset.range sy, ∑ iz ∈ Finset.range sz,
    (1 + if cc = true ∧ ¬(ix = sx - 1 ∨ iy = sy - 1 ∨ iz = sz - 1) then 1 else 0)

/-- Embedding of ChMatterPeridynamics::FillBox restricted to node masses:
every created node receives the same mass, the total box mass
V * density divided by the number of samples. -/
def FillBox (size : Vec3 ℚ) (spacing initial_density : ℚ)
    (do_centeredcube : Bool) : List ℚ :=
  let sx := (cIntCast (size.x / spacing)).toNat
  let sy := (cIntCast (size.y / spacing)).toNat
  let sz := (cIntCast (size.z / spacing)).toNat
  let totsamples := fillBoxCount sx sy sz do_centeredcube
  let mtotvol := size.x * size.y * size.z
  let mtotmass := mtotvol * initial_density
  let nodemass := mtotmass / (totsamples : ℚ)
  List.replicate totsamples nodemass

/-! ### Claim C9: solver front-end free-flight path

Embedding of ChLcpSolverParallelDVI::ComputeD / ComputeE / ComputeR /
ComputeImpulses.  The assembly bodies call into the constraint containers
(rigid_rigid, bilateral, node and fea containers), which live outside the
sources; they enter as opaque state transformers, guarded exactly as in
the sources by the early return on a zero constraint count. -/

/-- Assembled data of the parallel DVI solver for ndof velocity degrees
of freedom and ncon scalar constraints. -/
structure DVISolverData (ndof ncon : ℕ) where
  M_inv : Matrix (Fin ndof) (Fin ndof) ℚ
  M_invD : Matrix (Fin ndof) (Fin ncon) ℚ
  D_T : Matrix (Fin ncon) (Fin ndof) ℚ
  E : Fin ncon → ℚ
  b : Fin ncon → ℚ
  R_full : Fin ncon → ℚ
  M_invk : Fin ndof → ℚ
  hf : Fin ndof → ℚ
  gamma : Fin ncon → ℚ
  v : Fin ndof → ℚ

/-- Embedding of ChLcpSolverParallelDVI::ComputeD: early return on zero
constraints, otherwise the Jacobian assembly body runs. -/
def ComputeD {n m : ℕ} (assembleD : DVISolverData n m → DVISolverData n m)
    (s : DVISolverData n m) : DVISolverData n m :=
  if m = 0 then s else assembleD s

/-- Embedding of ChLcpSolverParallelDVI::ComputeE: early return on zero
constraints, otherwise the compliance vector is rebuilt. -/
def ComputeE {n m : ℕ} (buildE : DVISolverData n m → (Fin m → ℚ))
    (s : DVISolverData n m) : DVISolverData n m :=
  if m = 0 then s else { s with E := buildE s }

/-- Embedding of ChLcpSolverParallelDVI::ComputeR: early return on zero
constraints, otherwise the bias b is rebuilt and the residual becomes
R = -b - D_T * M_invk. -/
def ComputeR {n m : ℕ} (buildB : DVISolverData n m → (Fin m → ℚ))
    (s : DVISolverData n m) : DVISolverData n m :=
  if m = 0 then s
  else
    { s with b := buildB s,
             R_full := fun i => -(buildB s i) - s.D_T.mulVec s.M_invk i }

/-- Embedding of ChLcpSolverParallelDVI::ComputeImpulses: with constraints
present the velocity update is v + M_inv*hf + M_invD*gamma, otherwise only
the external impulses are applied. -/
def ComputeImpulses {n m : ℕ} (s : DVISolverData n m) : DVISolverData n m :=
  if 0 < m then
    { s with v := fun i => s.v i + s.M_inv.mulVec s.hf i + s.M_invD.mulVec s.gamma i }
  else
    { s with v := fun i => s.v i + s.M_inv.mulVec s.hf i }

/-- Concrete bond endpoint A for evaluating the bulk-elastic bond force:
at the origin, at rest, volume 1, horizon 1. -/
noncomputable def nodeA : PeriNode :=
  ⟨⟨0, 0, 0⟩, ⟨0, 0, 0⟩, ⟨0, 0, 0⟩, 1, 1⟩

/-- Concrete bond endpoint B with volume 2: reference position (2,0,0),
current position (1,0,0), at rest, horizon 1. -/
noncomputable def nodeB : PeriNode :=
  ⟨⟨2, 0, 0⟩, ⟨1, 0, 0⟩, ⟨0, 0, 0⟩, 2, 1⟩

/-- Concrete bond endpoint with the data of nodeB but volume 1. -/
noncomputable def nodeBeq : PeriNode :=
  ⟨⟨2, 0, 0⟩, ⟨1, 0, 0⟩, ⟨0, 0, 0⟩, 1, 1⟩

/-- Default bulk-elastic material parameters of the source. -/
noncomputable def bulkParams : BulkElasticParams :=
  ⟨100, 10⟩

/-- Concrete angle motor used to evaluate the bias-loading routines: shaft
angles 1 and 0, zero motion function, zero offset, zero time. -/
def sampleMotor : ShaftsMotorAngle :=
  { shaft1_pos := 1, shaft2_pos := 0,
    f_rot := { val := fun _ => 0, der := fun _ => 0 },
    rot_offset := 0, violation := 0, motor_torque := 0, chTime := 0,
    Cq_a := 0, Cq_b := 0, b_i := 0, l_i := 0 }

/-- Concrete rotation-vector exponential used in witnesses: a map that
together with witGetRotVec satisfies the round-trip semantics. -/
def witSetFromRotVec (v : Vec3 ℚ) : Quat :=
  ⟨1, v.x, v.y, v.z⟩

/-- Concrete rotation-vector logarithm used in witnesses. -/
def witGetRotVec (q : Quat) : Vec3 ℚ :=
  ⟨q.e1, q.e2, q.e3⟩

end Chrono

namespace Chrono

/-- Key algebraic fact behind the increment round trip: left-composing
with the conjugate cancels a unit quaternion, for the product convention
of the sources. -/
theorem qcross_qconjugate_cancel (q r : Quat) (h : Quat.normSq q = 1) :
    Quat.qcross (Quat.qconjugate q) (Quat.qcross q r) = r := by
  cases q with
  | mk a0 a1 a2 a3 =>
    cases r with
    | mk b0 b1 b2 b3 =>
      simp only [Quat.qcross, Quat.qconjugate, Quat.normSq, Quat.mk.injEq] at *
      refine ⟨?_, ?_, ?_, ?_⟩
      · linear_combination b0 * h
      · linear_combination b1 * h
      · linear_combination b2 * h
      · linear_combination b3 * h

/-- C1: for every position state whose rotational part is a unit
quaternion and every velocity-sized increment whose rotation vector is
faithfully inverted by the rotation-vector logarithm (the spec guarantees
this for angles below pi), the decrement is the exact inverse of the
increment: IntStateGetIncrement(IntStateIncrement(x, Dv), x) = Dv, with
translations by plain vector addition and subtraction and rotation via
the quaternion composition rule. -/
theorem C1_increment_getIncrement_roundtrip
    (setFromRotVec : Vec3 ℚ → Quat) (getRotVec : Quat → Vec3 ℚ)
    (x : BodyCoordState) (Dv : BodyStateIncr)
    (hunit : Quat.normSq x.rot = 1)
    (hlog : getRotVec (setFromRotVec Dv.drot) = Dv.drot) :
    IntStateGetIncrement getRotVec (IntStateIncrement setFromRotVec x Dv) x = Dv := by
  cases x with
  | mk xpos xrot =>
    cases Dv with
    | mk dpos drot =>
      simp only [IntStateIncrement, IntStateGetIncrement] at *
      rw [qcross_qconjugate_cancel _ _ hunit, hlog]
      cases xpos; cases dpos
      simp only [Vec3.add, Vec3.sub, BodyStateIncr.mk.injEq, Vec3.mk.injEq]
      refine ⟨⟨by ring, by ring, by ring⟩, trivial⟩

/-- Witness for C1 at a concrete input: position (1, 2, 3) with unit
quaternion (3/5, 4/5, 0, 0), increment (7, -1, 0) with rotation vector
(1/2, 1/3, 0). -/
theorem C1_increment_getIncrement_roundtrip_witness :
    Quat.normSq ⟨3/5, 4/5, 0, 0⟩ = 1 ∧
    witGetRotVec (witSetFromRotVec ⟨1/2, 1/3, 0⟩) = ⟨1/2, 1/3, 0⟩ ∧
    IntStateGetIncrement witGetRotVec
      (IntStateIncrement witSetFromRotVec
        ⟨⟨1, 2, 3⟩, ⟨3/5, 4/5, 0, 0⟩⟩ ⟨⟨7, -1, 0⟩, ⟨1/2, 1/3, 0⟩⟩)
      ⟨⟨1, 2, 3⟩, ⟨3/5, 4/5, 0, 0⟩⟩ = ⟨⟨7, -1, 0⟩, ⟨1/2, 1/3, 0⟩⟩ :=
  ⟨by norm_num [Quat.normSq], rfl,
   C1_increment_getIncrement_roundtrip witSetFromRotVec witGetRotVec
     ⟨⟨1, 2, 3⟩, ⟨3/5, 4/5, 0, 0⟩⟩ ⟨⟨7, -1, 0⟩, ⟨1/2, 1/3, 0⟩⟩
     (by norm_num [Quat.normSq]) rfl⟩

/-- C2, counterexample: at constraint violation C = 1, scaling factor 2,
recovery_clamp 1/2 and clamping enabled, the claim says both routines load
factor times clamp(C) = 2 * (1/2) = 1; instead IntLoadConstraint_C loads
clamp(factor * C) = 1/2 (it clamps after scaling) and ConstraintsBiLoad_C
adds factor * (factor * C) = 4 with no clamping at all. -/
theorem C2_bias_clamp_counterexample :
    (ShaftsMotorAngle.GetMotorAngle sampleMotor -
      sampleMotor.f_rot.val sampleMotor.chTime - sampleMotor.rot_offset = 1) ∧
    (2 : ℚ) * min (max (1 : ℚ) (-(1/2))) (1/2) = 1 ∧
    (ShaftsMotorAngle.IntLoadConstraint_C sampleMotor 0 (fun _ => 0) 2 true (1/2)) 0 = 1/2 ∧
    (ShaftsMotorAngle.ConstraintsBiLoad_C sampleMotor 2 (1/2) true).b_i = 4 ∧
    ((1 : ℚ) / 2 ≠ 1) ∧ ((4 : ℚ) ≠ 1) := by
  refine ⟨by norm_num [ShaftsMotorAngle.GetMotorAngle, sampleMotor], by norm_num, ?_, ?_, by norm_num, by norm_num⟩
  · norm_num [ShaftsMotorAngle.IntLoadConstraint_C, ShaftsMotorAngle.GetMotorAngle,
      sampleMotor, updAt]
  · norm_num [ShaftsMotorAngle.ConstraintsBiLoad_C, ShaftsMotorAngle.GetMotorAngle,
      sampleMotor]

/-- C2, amended: IntLoadConstraint_C adds to Qc at off_L the value
clamp(c*C, -recovery_clamp, +recovery_clamp) when do_clamp is set (the
clamp is applied to the already-scaled violation) and the raw scaled
violation c*C otherwise, leaving every other slot unchanged; while
ConstraintsBiLoad_C adds factor*(factor*C) to the constraint right-hand
side, ignoring do_clamp and recovery_clamp. -/
theorem C2_bias_load_amended (m : ShaftsMotorAngle) (off_L : ℕ) (Qc : ℕ → ℚ)
    (c rc factor : ℚ) (dc : Bool) (j : ℕ) :
    ShaftsMotorAngle.IntLoadConstraint_C m off_L Qc c dc rc j =
      (if j = off_L then
        Qc off_L +
          (if dc then
            min (max (c * (ShaftsMotorAngle.GetMotorAngle m - m.f_rot.val m.chTime - m.rot_offset)) (-rc)) rc
           else c * (ShaftsMotorAngle.GetMotorAngle m - m.f_rot.val m.chTime - m.rot_offset))
       else Qc j) ∧
    (ShaftsMotorAngle.ConstraintsBiLoad_C m factor rc dc).b_i =
      m.b_i + factor * (factor *
        (ShaftsMotorAngle.GetMotorAngle m - m.f_rot.val m.chTime - m.rot_offset)) := by
  constructor
  · simp only [ShaftsMotorAngle.IntLoadConstraint_C, updAt]
  · simp only [ShaftsMotorAngle.ConstraintsBiLoad_C]

/-- C3: after Update(t) the angle motor's GetConstraintViolation returns
exactly C = theta_A - theta_B - f(t) - offset, the Jacobian entries loaded
for the two shafts are +1 and -1, and IntLoadConstraint_Ct adds the scaled
rheonomic term c * Ct with Ct = -df/dt(t) into the residual slot. -/
theorem C3_angle_motor_observables (m : ShaftsMotorAngle) (t : ℚ)
    (off_L : ℕ) (Qc : ℕ → ℚ) (c : ℚ) :
    ShaftsMotorAngle.GetConstraintViolation (ShaftsMotorAngle.Update m t) =
      m.shaft1_pos - m.shaft2_pos - m.f_rot.val t - m.rot_offset ∧
    (ShaftsMotorAngle.ConstraintsLoadJacobians m).Cq_a = 1 ∧
    (ShaftsMotorAngle.ConstraintsLoadJacobians m).Cq_b = -1 ∧
    ShaftsMotorAngle.IntLoadConstraint_Ct (ShaftsMotorAngle.Update m t) off_L Qc c off_L =
      Qc off_L + c * (-(m.f_rot.der t)) := by
  refine ⟨rfl, rfl, rfl, ?_⟩
  simp [ShaftsMotorAngle.IntLoadConstraint_Ct, ShaftsMotorAngle.Update, updAt]

/-- C4: IntLoadResidual_F accumulates c times the applied force into the
three translational residual slots and c times the applied torque minus
the gyroscopic pseudo-force w x (I*w) into the three rotational slots,
omitting the gyroscopic subtraction exactly when the no-gyro-torque flag
is set; all other residual slots are untouched. -/
theorem C4_intLoadResidual_F_gyro (b : BodyForceState) (off : ℕ)
    (R : ℕ → ℚ) (c : ℚ) (j : ℕ) :
    IntLoadResidual_F (ComputeGyro b) off R c j =
      (if j = off then R j + c * b.Xforce.x
       else if j = off + 1 then R j + c * b.Xforce.y
       else if j = off + 2 then R j + c * b.Xforce.z
       else if j = off + 3 then R j + c * (b.Xtorque.x -
         (if b.noGyroTorque then 0
          else (Vec3.cross b.angVelLocal (b.inertia.mulVec b.angVelLocal)).x))
       else if j = off + 4 then R j + c * (b.Xtorque.y -
         (if b.noGyroTorque then 0
          else (Vec3.cross b.angVelLocal (b.inertia.mulVec b.angVelLocal)).y))
       else if j = off + 5 then R j + c * (b.Xtorque.z -
         (if b.noGyroTorque then 0
          else (Vec3.cross b.angVelLocal (b.inertia.mulVec b.angVelLocal)).z))
       else R j) := by
  cases hg : b.noGyroTorque <;>
    simp only [IntLoadResidual_F, ComputeGyro, addSeg3, hg, Vec3.smul,
      Vec3.sub, Bool.false_eq_true, if_false, if_true] <;>
    split_ifs <;> first | ring1 | (exfalso; omega)

/-- Concrete body for the C7 counterexample: sleeping enabled, active,
both speeds below threshold, and elapsed time exactly sleep_time. -/
def sleepBody : BodySleepState :=
  { useSleeping := true, sleeping := false, fixed := false,
    couldSleep := false, pos_dt := ⟨0, 0, 0⟩, rot_dt := ⟨0, 0, 0, 0⟩,
    sleep_minspeed := 1/10, sleep_minwvel := 1/10,
    sleep_time := 1, sleep_starttime := 0, chTime := 1 }

/-- C7, counterexample: a body that has been below both thresholds with
sleeping enabled and is active, whose elapsed time equals sleep_time
exactly, is not marked as sleep candidate: the source requires the
elapsed time to exceed sleep_time strictly. -/
theorem C7_trySleeping_exact_duration_counterexample :
    sleepBody.useSleeping = true ∧ sleepBody.isActive = true ∧
    Vec3.lengthInf sleepBody.pos_dt < sleepBody.sleep_minspeed ∧
    2 * Quat.lengthInf sleepBody.rot_dt < sleepBody.sleep_minwvel ∧
    sleepBody.chTime - sleepBody.sleep_starttime = sleepBody.sleep_time ∧
    (TrySleeping sleepBody).1 = false ∧
    (TrySleeping sleepBody).2.couldSleep = false := by
  refine ⟨rfl, rfl, ?_, ?_, ?_, ?_, ?_⟩ <;>
    norm_num [TrySleeping, sleepBody, BodySleepState.isActive,
      Vec3.lengthInf, Quat.lengthInf]

/-- C7, amended: TrySleeping returns true and sets the could-sleep flag
exactly when sleeping is enabled, the body is active, both speed measures
are below their thresholds and the elapsed time since the timer start
strictly exceeds sleep_time; the timer restarts from the current time
exactly when sleeping is enabled, the body is active and a speed measure
fails its threshold; in every other case TrySleeping returns false with
the could-sleep flag cleared. -/
theorem C7_trySleeping_amended (b : BodySleepState) :
    ((TrySleeping b).1 = true ↔
      (b.useSleeping = true ∧ b.sleeping = false ∧ b.fixed = false ∧
        b.pos_dt.lengthInf < b.sleep_minspeed ∧
        2 * b.rot_dt.lengthInf < b.sleep_minwvel ∧
        b.sleep_time < b.chTime - b.sleep_starttime)) ∧
    (TrySleeping b).2.couldSleep = (TrySleeping b).1 ∧
    (TrySleeping b).2.sleep_starttime =
      (if b.useSleeping = true ∧ b.sleeping = false ∧ b.fixed = false ∧
          ¬(b.pos_dt.lengthInf < b.sleep_minspeed ∧
            2 * b.rot_dt.lengthInf < b.sleep_minwvel)
        then b.chTime else b.sleep_starttime) := by
  rcases b with ⟨us, sl, fx, cs, pd, rd, ms, mw, st, stt, ct⟩
  cases us <;> cases sl <;> cases fx <;>
    simp only [TrySleeping, BodySleepState.isActive] <;>
    split_ifs <;> simp_all

/-- C5, counterexample: for a bond whose endpoints have volumes 1 and 2
(reference distance 2, current distance 1, both at rest), the
contribution accumulated onto node A is (-900/pi, 0, 0) while the
contribution accumulated onto node B is (450/pi, 0, 0): the two are
anti-parallel but not equal in magnitude, so the per-bond contributions
do not satisfy the claimed equal-and-opposite law. -/
theorem C5_newton_third_law_counterexample :
    (bondForce bulkParams nodeA nodeB).1 = ⟨-900 / Real.pi, 0, 0⟩ ∧
    (bondForce bulkParams nodeA nodeB).2 = ⟨450 / Real.pi, 0, 0⟩ ∧
    (bondForce bulkParams nodeA nodeB).1 ≠
      Vec3.neg (bondForce bulkParams nodeA nodeB).2 := by
  have h4 : Real.sqrt (4:ℝ) = 2 := by
    rw [show (4:ℝ) = 2 ^ 2 by norm_num]
    exact Real.sqrt_sq (by norm_num)
  have hval : bondForce bulkParams nodeA nodeB =
      (⟨-900 / Real.pi, 0, 0⟩, ⟨450 / Real.pi, 0, 0⟩) := by
    unfold bondForce nodeA nodeB bulkParams
    simp only [Vec3.sub, Vec3.length, Vec3.getNormalized, Vec3.dot,
      Vec3.smul, Vec3.neg]
    norm_num [h4, Real.sqrt_one]
    constructor <;> field_simp <;> ring
  refine ⟨by rw [hval], by rw [hval], ?_⟩
  rw [hval]
  simp only [Vec3.neg, ne_eq, Vec3.mk.injEq, not_and]
  intro hx
  exfalso
  field_simp at hx
  rcases hx with h | h
  · norm_num at h
  · exact Real.pi_ne_zero h

/-- C5, amended: the two per-bond contributions are opposite in direction
along the bond axis with magnitudes weighted by the opposite endpoint's
volume, so they are equal in magnitude and opposite in direction
(including the viscous part) whenever the two endpoint volumes are
equal. -/
theorem C5_bond_force_equal_volumes (p : BulkElasticParams) (A B : PeriNode)
    (h : A.volume = B.volume) :
    (bondForce p A B).1 = Vec3.neg (bondForce p A B).2 := by
  unfold bondForce
  simp only [Vec3.smul, Vec3.neg, Vec3.mk.injEq, h]
  refine ⟨by ring, by ring, by ring⟩

/-- Witness for C5 at a concrete input with equal volumes. -/
theorem C5_bond_force_equal_volumes_witness :
    nodeA.volume = nodeBeq.volume ∧
    (bondForce bulkParams nodeA nodeBeq).1 =
      Vec3.neg (bondForce bulkParams nodeA nodeBeq).2 :=
  ⟨rfl, C5_bond_force_equal_volumes bulkParams nodeA nodeBeq rfl⟩

/-- C6: the per-node phase deactivates exactly the nodes whose shape
tensor has absolute determinant below the fixed threshold 0.00003,
zeroing their shape tensor and elastic strain and leaving their (reset)
elastic stress untouched, and this branch returns normally rather than
failing; every other node gets its shape tensor analytically inverted and
its elastic stress computed from the return-mapping-corrected strain; in
both branches the nodal volume becomes mass over accumulated density
(zero for empty density). -/
theorem C6_perNode_shape_tensor_guard
    (rm : Mat33 ℚ → Mat33 ℚ → Mat33 ℚ → Mat33 ℚ)
    (es : Mat33 ℚ → Mat33 ℚ) (n : PeriNodeState) :
    (perNodeUpdate rm es n).Amoment =
      (if |n.Amoment.det| < 3/100000 then Mat33.zeroM else n.Amoment.inv33) ∧
    (perNodeUpdate rm es n).e_strain =
      (if |n.Amoment.det| < 3/100000 then Mat33.zeroM else n.e_strain) ∧
    (perNodeUpdate rm es n).e_stress =
      (if |n.Amoment.det| < 3/100000 then n.e_stress
       else es ((n.e_strain.subM (rm
           ((((n.Amoment.inv33.mul n.J).addDiag 1).mul
              ((n.Amoment.inv33.mul n.J).addDiag 1).transpose).addDiag (-1))
           n.e_strain n.p_strain)).addM
         ((((n.Amoment.inv33.mul n.J).addDiag 1).mul
            ((n.Amoment.inv33.mul n.J).addDiag 1).transpose).addDiag (-1)))) ∧
    (perNodeUpdate rm es n).volume =
      (if n.density > 0 then n.mass / n.density else 0) := by
  by_cases hdt : |n.Amoment.det| < 3/100000 <;>
    by_cases hdn : n.density > 0 <;>
      simp [perNodeUpdate, hdt, hdn]

/-- C8: whenever FillBox creates at least one node, all created nodes
receive the same mass and the masses sum to exactly V * density with
V the box volume, for every spacing, density and option flag choice. -/
theorem C8_fillBox_mass_conservation (size : Vec3 ℚ) (spacing ρ : ℚ)
    (cc : Bool) (h : FillBox size spacing ρ cc ≠ []) :
    (∀ m1 ∈ FillBox size spacing ρ cc, ∀ m2 ∈ FillBox size spacing ρ cc, m1 = m2) ∧
    (FillBox size spacing ρ cc).sum = size.x * size.y * size.z * ρ := by
  let N := fillBoxCount ((cIntCast (size.x / spacing)).toNat)
    ((cIntCast (size.y / spacing)).toNat) ((cIntCast (size.z / spacing)).toNat) cc
  have hrepl : FillBox size spacing ρ cc =
      List.replicate N (size.x * size.y * size.z * ρ / (N : ℚ)) := rfl
  have hN : N ≠ 0 := by
    intro h0
    apply h
    rw [hrepl, h0]
    rfl
  rw [hrepl] at h ⊢
  constructor
  · intro m1 hm1 m2 hm2
    rw [List.eq_of_mem_replicate hm1, List.eq_of_mem_replicate hm2]
  · rw [List.sum_replicate, nsmul_eq_mul]
    have hq : (N : ℚ) ≠ 0 := Nat.cast_ne_zero.mpr hN
    field_simp

/-- Witness for C8 at a concrete input: unit box, spacing 1/2, density 3,
no centered cube: 8 nodes of mass 3/8 each, total mass 3. -/
theorem C8_fillBox_mass_conservation_witness :
    FillBox ⟨1, 1, 1⟩ (1/2) 3 false ≠ [] ∧
    ((∀ m1 ∈ FillBox ⟨1, 1, 1⟩ (1/2) 3 false,
        ∀ m2 ∈ FillBox ⟨1, 1, 1⟩ (1/2) 3 false, m1 = m2) ∧
      (FillBox ⟨1, 1, 1⟩ (1/2) 3 false).sum = 1 * 1 * 1 * 3) := by
  have hfl : cIntCast ((1 : ℚ) / (1/2)) = 2 := by norm_num [cIntCast]
  have h2 : (cIntCast ((1 : ℚ) / (1/2))).toNat = 2 := by rw [hfl]; rfl
  have h8 : fillBoxCount 2 2 2 false = 8 := by decide
  have hval : FillBox ⟨1, 1, 1⟩ (1/2) 3 false = List.replicate 8 (3/8) := by
    unfold FillBox
    simp only [h2, h8]
    norm_num
  have hne : FillBox ⟨1, 1, 1⟩ (1/2) 3 false ≠ [] := by
    rw [hval]
    simp
  exact ⟨hne, C8_fillBox_mass_conservation ⟨1, 1, 1⟩ (1/2) 3 false hne⟩

/-- C9: with a zero constraint count the D, E and R assembly routines
return the solver data untouched regardless of what their assembly bodies
would do, and the velocity update applies external impulses only,
v + M_inv * hf; with a positive constraint count the update is
v + M_inv * hf + M_invD * gamma. -/
theorem C9_zero_constraints_free_flight (n m : ℕ)
    (fD : DVISolverData n 0 → DVISolverData n 0)
    (fE fb : DVISolverData n 0 → (Fin 0 → ℚ))
    (s0 : DVISolverData n 0) (s1 : DVISolverData n (m + 1)) :
    ComputeD fD s0 = s0 ∧
    ComputeE fE s0 = s0 ∧
    ComputeR fb s0 = s0 ∧
    (ComputeImpulses s0).v = (fun i => s0.v i + s0.M_inv.mulVec s0.hf i) ∧
    (ComputeImpulses s1).v =
      (fun i => s1.v i + s1.M_inv.mulVec s1.hf i + s1.M_invD.mulVec s1.gamma i) := by
  refine ⟨?_, ?_, ?_, ?_, ?_⟩ <;>
    simp [ComputeD, ComputeE, ComputeR, ComputeImpulses]

/-- C10: for a boxed two-variable constraint whose bounds were set through
SetBoxedMinMax with l_min <= l_max, Project maps the multiplier into the
admissible box, leaves values already inside the box unchanged, and is
idempotent. -/
theorem C10_boxed_project_admissible (c0 : BoxedConstraint) (l : ℚ)
    (mmin mmax : ℚ) (h : mmin ≤ mmax) :
    (mmin ≤ (Project (SetBoxedMinMax { c0 with l_i := l } mmin mmax)).l_i ∧
      (Project (SetBoxedMinMax { c0 with l_i := l } mmin mmax)).l_i ≤ mmax) ∧
    (mmin ≤ l → l ≤ mmax →
      Project (SetBoxedMinMax { c0 with l_i := l } mmin mmax) =
        SetBoxedMinMax { c0 with l_i := l } mmin mmax) ∧
    Project (Project (SetBoxedMinMax { c0 with l_i := l } mmin mmax)) =
      Project (SetBoxedMinMax { c0 with l_i := l } mmin mmax) := by
  simp only [Project, SetBoxedMinMax]
  split_ifs <;> simp_all

/-- Witness for C10 at concrete inputs: bounds [-1, 2], multiplier 5. -/
theorem C10_boxed_project_admissible_witness :
    ((-1 : ℚ) ≤ 2) ∧
    (((-1 : ℚ) ≤ (Project (SetBoxedMinMax { l_min := 0, l_max := 0, l_i := (5 : ℚ) } (-1) 2)).l_i ∧
      (Project (SetBoxedMinMax { l_min := 0, l_max := 0, l_i := (5 : ℚ) } (-1) 2)).l_i ≤ 2) ∧
    ((-1 : ℚ) ≤ 5 → (5 : ℚ) ≤ 2 →
      Project (SetBoxedMinMax { l_min := 0, l_max := 0, l_i := (5 : ℚ) } (-1) 2) =
        SetBoxedMinMax { l_min := 0, l_max := 0, l_i := (5 : ℚ) } (-1) 2) ∧
    Project (Project (SetBoxedMinMax { l_min := 0, l_max := 0, l_i := (5 : ℚ) } (-1) 2)) =
      Project (SetBoxedMinMax { l_min := 0, l_max := 0, l_i := (5 : ℚ) } (-1) 2)) :=
  ⟨by norm_num,
   C10_boxed_project_admissible { l_min := 0, l_max := 0, l_i := 5 } 5 (-1) 2 (by norm_num)⟩

end Chrono
